import Mathlib

/-!
Verification of the ConnectionQuest session-and-matching engine.

This file gives a shallow embedding of the server core of the repository:
the shared database schema (`src/unnamed/part_017`), the storage layer
(`src/server/storage.ts`), the game service (`src/server/game-service.ts`,
which contains two variants of the service separated by a document marker:
the first variant scores only common-category questions and persists the
result on the session row, the second variant scores every mutually
answered question and performs no write), and the voucher-issuance step of
the results route (`src/unnamed/part_016`).

The database is modelled as explicit lists of rows in insertion order;
every operation is a pure function from a `DBState` (and its arguments) to
a result and a new `DBState`.  JavaScript `Map` objects are modelled as
association lists with first-insertion ordering, `Math.round(m / d * 100)`
as exact rational half-up rounding on naturals, and the random `nanoid`
suffix of a voucher code as an explicit input.
-/

namespace ConnectionQuest

/-- Row of the `users` table (part_017); only the id is relevant to the core. -/
structure UserRow where
  id : Nat
deriving DecidableEq, Repr

/-- Row of the `game_sessions` table (part_017): id, unique code, completed
flag (default false) and optional persisted match percentage. -/
structure GameSession where
  id : Nat
  sessionCode : String
  completed : Bool
  matchPercentage : Option Nat
deriving DecidableEq, Repr

/-- Row of the `questions` table (part_017): `questionType` is `"common"` or
`"individual"`. -/
structure QuestionRow where
  id : Nat
  text : String
  questionType : String
deriving DecidableEq, Repr

/-- Row of the `question_options` table (part_017). -/
structure OptionRow where
  id : Nat
  questionId : Nat
  optionText : String
deriving DecidableEq, Repr

/-- Row of the `user_answers` table (part_017); the serial id and timestamp
are irrelevant to the core and omitted. -/
structure AnswerRow where
  userId : Nat
  sessionId : Nat
  questionId : Nat
  selectedOptionId : Nat
deriving DecidableEq, Repr

/-- Expiry of a voucher: the source sets a JS `Date` to now plus
`validityDays` days (template case) or now plus 3 months (fallback case).
Wall-clock time is abstracted to the symbolic offset that the code adds. -/
inductive ValidUntil where
  | daysFromNow (n : Nat)
  | monthsFromNow (n : Nat)
deriving DecidableEq, Repr

/-- Row of the `vouchers` table (part_017). -/
structure VoucherRow where
  id : Nat
  sessionId : Nat
  voucherCode : String
  voucherType : String
  discount : String
  validUntil : ValidUntil
  downloaded : Bool
deriving DecidableEq, Repr

/-- Row of the `coupon_templates` table (part_017).  `discountValue` is a
text column in the schema. -/
structure CouponTemplate where
  id : Nat
  name : String
  discountType : String
  discountValue : String
  currency : String
  validityDays : Nat
  matchPercentageThreshold : Nat
  isActive : Bool
deriving DecidableEq, Repr

/-- The persistent store: one list of rows per table, in insertion order
(`session_participants` rows are (sessionId, userId) pairs). -/
structure DBState where
  sessions : List GameSession
  participants : List (Nat × Nat)
  questions : List QuestionRow
  options : List OptionRow
  answers : List AnswerRow
  vouchers : List VoucherRow
  couponTemplates : List CouponTemplate
deriving DecidableEq, Repr

/-- Storage `getGameSessionByCode` (storage.ts): `findFirst` on the session
code. -/
def getGameSessionByCode (s : DBState) (code : String) : Option GameSession :=
  s.sessions.find? (fun g => g.sessionCode == code)

/-- Storage `getSessionParticipants` (storage.ts): the member rows of the
session in storage order, each joined with its user row; the join is the
identity on the user id, so the result is modelled as the list of user
ids. -/
def getSessionParticipants (s : DBState) (sessionId : Nat) : List Nat :=
  (s.participants.filter (fun p => p.1 == sessionId)).map (fun p => p.2)

/-- Storage `addParticipantToSession` (storage.ts): insert one membership
row. -/
def addParticipantToSession (s : DBState) (sessionId userId : Nat) : DBState :=
  { s with participants := s.participants ++ [(sessionId, userId)] }

/-- Storage `saveUserAnswer` (storage.ts): insert one answer row. -/
def saveUserAnswer (s : DBState) (row : AnswerRow) : DBState :=
  { s with answers := s.answers ++ [row] }

/-- Storage `hasUserSubmittedAnswers` (storage.ts): true iff at least one
answer row exists for the (session, user) pair. -/
def hasUserSubmittedAnswers (s : DBState) (sessionId userId : Nat) : Bool :=
  decide (0 < (s.answers.filter
    (fun a => a.sessionId == sessionId && a.userId == userId)).length)

/-- Lookup of a question row by id (the drizzle `question` relation of an
answer). -/
def lookupQuestion (s : DBState) (questionId : Nat) : Option QuestionRow :=
  s.questions.find? (fun q => q.id == questionId)

/-- Lookup of an option row by id (the drizzle `selectedOption` relation of
an answer). -/
def lookupOption (s : DBState) (optionId : Nat) : Option OptionRow :=
  s.options.find? (fun o => o.id == optionId)

/-- An answer joined with its question text, question category and selected
option text, as returned by storage `getSessionAnswers`. -/
structure JoinedAnswer where
  userId : Nat
  questionId : Nat
  questionText : String
  questionType : String
  answerText : String
deriving DecidableEq, Repr

/-- Join one answer row with its question and option rows. -/
def joinAnswer (s : DBState) (a : AnswerRow) : Option JoinedAnswer :=
  match lookupQuestion s a.questionId, lookupOption s a.selectedOptionId with
  | some q, some o =>
      some ⟨a.userId, a.questionId, q.text, q.questionType, o.optionText⟩
  | _, _ => none

/-- Storage `getSessionAnswers` (storage.ts): the answer rows of the session
in insertion order, each joined with question and option.  The schema
declares both foreign keys not-null, so under referential integrity
(`RefIntact`) the join drops nothing. -/
def getSessionAnswers (s : DBState) (sessionId : Nat) : List JoinedAnswer :=
  (s.answers.filter (fun a => a.sessionId == sessionId)).filterMap (joinAnswer s)

/-- Referential integrity of the answer table: every answer points at an
existing question and an existing option, as the not-null foreign keys of
`user_answers` (part_017) guarantee. -/
def RefIntact (s : DBState) : Prop :=
  ∀ a ∈ s.answers,
    (lookupQuestion s a.questionId).isSome ∧ (lookupOption s a.selectedOptionId).isSome

instance (s : DBState) : Decidable (RefIntact s) := by
  unfold RefIntact; infer_instance

/-- Storage `getVoucherBySessionId` (storage.ts): `findFirst` on the session
id. -/
def getVoucherBySessionId (s : DBState) (sessionId : Nat) : Option VoucherRow :=
  s.vouchers.find? (fun v => v.sessionId == sessionId)

/-- Storage `createVoucher` (storage.ts): insert a voucher row, the serial
id being the next free one, and return the inserted row. -/
def createVoucher (s : DBState) (sessionId : Nat) (voucherCode voucherType discount : String)
    (validUntil : ValidUntil) : VoucherRow × DBState :=
  let v : VoucherRow :=
    ⟨s.vouchers.length + 1, sessionId, voucherCode, voucherType, discount, validUntil, false⟩
  (v, { s with vouchers := s.vouchers ++ [v] })

/-- Storage `markVoucherAsDownloaded` (storage.ts). -/
def markVoucherAsDownloaded (s : DBState) (voucherId : Nat) : DBState :=
  { s with vouchers := s.vouchers.map (fun v =>
      if v.id == voucherId then { v with downloaded := true } else v) }

/-- Storage `areAllAnswersSubmitted` (storage.ts): the per-user answer
counts of the session, grouped in order of first occurrence (the SQL
`groupBy` on userId). -/
def answerCountsByUser (s : DBState) (sessionId : Nat) : List (Nat × Nat) :=
  (s.answers.filter (fun a => a.sessionId == sessionId)).foldl
    (fun acc a =>
      if acc.any (fun p => p.1 == a.userId) then
        acc.map (fun p => if p.1 == a.userId then (p.1, p.2 + 1) else p)
      else acc ++ [(a.userId, 1)]) []

/-- Storage `areAllAnswersSubmitted` (storage.ts): 2 or more members, a
non-empty question catalog, every member having submitted, and every
submitting user having at least as many answers as there are questions. -/
def areAllAnswersSubmitted (s : DBState) (sessionId : Nat) : Bool :=
  let participants := getSessionParticipants s sessionId
  if participants.length < 2 then false
  else if s.questions.length == 0 then false
  else
    let counts := answerCountsByUser s sessionId
    if counts.length < participants.length then false
    else counts.all (fun p => s.questions.length ≤ p.2)

/-- Storage `getActiveCouponTemplate` (storage.ts): `findFirst` over the
active templates whose threshold is at most the match percentage, ordered
by threshold descending — i.e. the first listed template of maximal
threshold among the qualifying ones. -/
def getActiveCouponTemplate (s : DBState) (matchPercentage : Nat) : Option CouponTemplate :=
  (s.couponTemplates.filter
    (fun t => t.isActive && t.matchPercentageThreshold ≤ matchPercentage)).foldl
    (fun best t =>
      match best with
      | none => some t
      | some b => if b.matchPercentageThreshold < t.matchPercentageThreshold then some t else some b)
    none

/-- Service `joinSession` (game-service.ts, identical in both variants):
idempotent success for an existing member, failure when the session is
absent or already has 2 members, insertion otherwise. -/
def joinSession (s : DBState) (sessionCode : String) (userId : Nat) : Bool × DBState :=
  match getGameSessionByCode s sessionCode with
  | none => (false, s)
  | some sess =>
      let participants := getSessionParticipants s sess.id
      if participants.contains userId then (true, s)
      else if 2 ≤ participants.length then (false, s)
      else (true, addParticipantToSession s sess.id userId)

/-- Service `submitAnswers` (game-service.ts, identical in both variants):
throws when the session code is unknown, otherwise saves each
(questionId, optionId) pair in order. -/
def submitAnswers (s : DBState) (sessionCode : String) (userId : Nat)
    (answers : List (Nat × Nat)) : Except String DBState :=
  match getGameSessionByCode s sessionCode with
  | none => Except.error "Session not found"
  | some sess =>
      Except.ok (answers.foldl
        (fun st a => saveUserAnswer st ⟨userId, sess.id, a.1, a.2⟩) s)

/-- Value stored in the per-user JS `Map` of `calculateMatches`: question
text and selected option text (the second variant additionally stores the
question category, which is never read). -/
structure AnswerInfo where
  questionText : String
  answerText : String
deriving DecidableEq, Repr

/-- Insertion-ordered association list modelling a JS `Map` keyed by
question id. -/
abbrev AMap := List (Nat × AnswerInfo)

/-- JS `Map.set`: overwrite in place when the key is present, append
otherwise. -/
def mapSet (m : AMap) (k : Nat) (v : AnswerInfo) : AMap :=
  if m.any (fun p => p.1 == k) then
    m.map (fun p => if p.1 == k then (k, v) else p)
  else m ++ [(k, v)]

/-- JS `Map.get`. -/
def mapGet (m : AMap) (k : Nat) : Option AnswerInfo :=
  (m.find? (fun p => p.1 == k)).map (fun p => p.2)

/-- The `sessionAnswers.forEach` fill loop of `calculateMatches`: each
answer goes into the first user's map if its userId is the first
participant, into the second user's map if it is the second, and is
ignored otherwise. -/
def buildAnswerMaps (userId1 userId2 : Nat) (l : List JoinedAnswer) : AMap × AMap :=
  l.foldl
    (fun ms a =>
      if a.userId == userId1 then (mapSet ms.1 a.questionId ⟨a.questionText, a.answerText⟩, ms.2)
      else if a.userId == userId2 then (ms.1, mapSet ms.2 a.questionId ⟨a.questionText, a.answerText⟩)
      else ms)
    ([], [])

/-- Result of a `MatchResult.matchingAnswers` entry. -/
structure MatchingAnswer where
  question : String
  answer : String
deriving DecidableEq, Repr

/-- Result of a `MatchResult.nonMatchingAnswers` entry; `yourAnswer` is the
first participant's answer. -/
structure NonMatchingAnswer where
  question : String
  yourAnswer : String
  partnerAnswer : String
deriving DecidableEq, Repr

/-- The `MatchResult` interface of game-service.ts. -/
structure MatchResult where
  matchPercentage : Nat
  matchingAnswers : List MatchingAnswer
  nonMatchingAnswers : List NonMatchingAnswer
  sessionId : Nat
deriving DecidableEq, Repr

/-- Accumulator of the comparison loop of `calculateMatches`. -/
structure CompareAcc where
  matchCount : Nat
  matchingAnswers : List MatchingAnswer
  nonMatchingAnswers : List NonMatchingAnswer
deriving DecidableEq, Repr

/-- One iteration of the comparison loop: skip when the second user has no
answer for the question, otherwise extend the matching or non-matching
list according to byte equality of the answer texts. -/
def compareStep (m2 : AMap) (acc : CompareAcc) (kv : Nat × AnswerInfo) : CompareAcc :=
  match mapGet m2 kv.1 with
  | none => acc
  | some a2 =>
      if kv.2.answerText == a2.answerText then
        { acc with
            matchCount := acc.matchCount + 1,
            matchingAnswers := acc.matchingAnswers ++ [⟨kv.2.questionText, kv.2.answerText⟩] }
      else
        { acc with
            nonMatchingAnswers :=
              acc.nonMatchingAnswers ++ [⟨kv.2.questionText, kv.2.answerText, a2.answerText⟩] }

/-- The comparison loop of `calculateMatches` over the first participant's
map entries in insertion order. -/
def compareAnswerMaps (m1 m2 : AMap) : CompareAcc :=
  m1.foldl (compareStep m2) ⟨0, [], []⟩

/-- JS `Math.round ((m / d) * 100)` for naturals with `d > 0`: exact
half-up rounding of the rational `100 * m / d`. -/
def jsRound100 (m d : Nat) : Nat :=
  (200 * m + d) / (2 * d)

/-- Ids of the common-category questions (first variant of
`calculateMatches`). -/
def commonQuestionIds (s : DBState) : List Nat :=
  (s.questions.filter (fun q => q.questionType == "common")).map (fun q => q.id)

/-- The `db.update` at the end of the first variant of `calculateMatches`:
set `completed` and `matchPercentage` on the session row. -/
def updateSessionResult (s : DBState) (sessionId pct : Nat) : DBState :=
  { s with sessions := s.sessions.map (fun g =>
      if g.id == sessionId then { g with completed := true, matchPercentage := some pct } else g) }

/-- Computation core of the first variant of `calculateMatches`
(game-service.ts lines 133-223): fill the two maps from the session
answers restricted to common-category questions (the forEach skips the
rest), compare, and divide by the number of common questions the first
participant answered, guarding division by zero. -/
def matchOutcomeV1 (s : DBState) (sessionId userId1 userId2 : Nat) : MatchResult :=
  let sessionAnswers := getSessionAnswers s sessionId
  let commonIds := commonQuestionIds s
  let commonAnswers := sessionAnswers.filter (fun a => commonIds.contains a.questionId)
  let maps := buildAnswerMaps userId1 userId2 commonAnswers
  let cmp := compareAnswerMaps maps.1 maps.2
  let commonQuestionsAnswered := maps.1.length
  let matchPercentage :=
    if 0 < commonQuestionsAnswered then jsRound100 cmp.matchCount commonQuestionsAnswered
    else 0
  ⟨matchPercentage, cmp.matchingAnswers, cmp.nonMatchingAnswers, sessionId⟩

/-- First variant of `calculateMatches` (game-service.ts lines 118-239):
requires exactly 2 participants, computes `matchOutcomeV1`, persists
`completed = true` and the percentage, and returns the result. -/
def calculateMatchesV1 (s : DBState) (sessionCode : String) : Option MatchResult × DBState :=
  match getGameSessionByCode s sessionCode with
  | none => (none, s)
  | some sess =>
      match getSessionParticipants s sess.id with
      | [userId1, userId2] =>
          let r := matchOutcomeV1 s sess.id userId1 userId2
          (some r, updateSessionResult s sess.id r.matchPercentage)
      | _ => (none, s)

/-- Computation core of the second variant of `calculateMatches`
(game-service.ts lines 437-536): fill the two maps from ALL session
answers, compare, and divide by the number of questions both users
answered (matching plus non-matching), guarding division by zero. -/
def matchOutcomeV2 (s : DBState) (sessionId userId1 userId2 : Nat) : MatchResult :=
  let sessionAnswers := getSessionAnswers s sessionId
  let maps := buildAnswerMaps userId1 userId2 sessionAnswers
  let cmp := compareAnswerMaps maps.1 maps.2
  let totalQuestions := cmp.matchingAnswers.length + cmp.nonMatchingAnswers.length
  let matchPercentage :=
    if 0 < totalQuestions then jsRound100 cmp.matchCount totalQuestions else 0
  ⟨matchPercentage, cmp.matchingAnswers, cmp.nonMatchingAnswers, sessionId⟩

/-- Second variant of `calculateMatches` (game-service.ts lines 422-537):
requires exactly 2 participants, computes `matchOutcomeV2`, performs no
database write, and returns the result. -/
def calculateMatchesV2 (s : DBState) (sessionCode : String) : Option MatchResult × DBState :=
  match getGameSessionByCode s sessionCode with
  | none => (none, s)
  | some sess =>
      match getSessionParticipants s sess.id with
      | [userId1, userId2] =>
          (some (matchOutcomeV2 s sess.id userId1 userId2), s)
      | _ => (none, s)

/-- The part of a voucher returned to the route by `generateVoucher`. -/
structure VoucherOut where
  voucherId : Nat
  voucherCode : String
  discount : String
  validUntil : ValidUntil
deriving DecidableEq, Repr

/-- Service `generateVoucher` (game-service.ts, identical in both
variants): build the code from the random suffix (passed explicitly here),
pick the active template for the percentage; with a template, format the
discount from its type and value (an empty currency falls back to `AED`,
the JS `||`) and use its validity days; without one, fall back to the
tiered default discount and a 3-month validity; insert and return the
voucher. -/
def generateVoucher (s : DBState) (sessionId matchPercentage : Nat)
    (freshSuffix : String) : VoucherOut × DBState :=
  let voucherCode := "MAWADHA-" ++ freshSuffix
  match getActiveCouponTemplate s matchPercentage with
  | some t =>
      let discount :=
        if t.discountType == "percentage" then t.discountValue ++ "% OFF"
        else (if t.currency == "" then "AED" else t.currency) ++ " " ++ t.discountValue ++ " OFF"
      let r := createVoucher s sessionId voucherCode t.name discount
        (ValidUntil.daysFromNow t.validityDays)
      (⟨r.1.id, r.1.voucherCode, r.1.discount, r.1.validUntil⟩, r.2)
  | none =>
      let discount :=
        if 80 ≤ matchPercentage then "30% OFF"
        else if 60 ≤ matchPercentage then "20% OFF"
        else "10% OFF"
      let r := createVoucher s sessionId voucherCode "COUPLE\x27S DINNER" discount
        (ValidUntil.monthsFromNow 3)
      (⟨r.1.id, r.1.voucherCode, r.1.discount, r.1.validUntil⟩, r.2)

/-- Voucher issuance step of the results route (part_016 lines 452-472):
when the match percentage is at least 50, return the existing voucher of
the session unchanged if there is one, otherwise mint one through
`generateVoucher`; below 50 no voucher is issued. -/
def resultsVoucherStep (s : DBState) (sessionId matchPercentage : Nat)
    (freshSuffix : String) : Option VoucherOut × DBState :=
  if 50 ≤ matchPercentage then
    match getVoucherBySessionId s sessionId with
    | some v => (some ⟨v.id, v.voucherCode, v.discount, v.validUntil⟩, s)
    | none =>
        let r := generateVoucher s sessionId matchPercentage freshSuffix
        (some r.1, r.2)
  else (none, s)

/-- Specification-side count: the number of distinct questions that both
participants answered in the session (category-blind, duplicate answer
rows counted once). -/
def answeredQuestionIds (s : DBState) (sessionId userId : Nat) : List Nat :=
  ((s.answers.filter (fun a => a.sessionId == sessionId && a.userId == userId)).map
    (fun a => a.questionId)).dedup

/-- Specification-side denominator of §4.3 step 6: `totalQuestionsBothAnswered`. -/
def bothAnsweredCount (s : DBState) (sessionId u1 u2 : Nat) : Nat :=
  ((answeredQuestionIds s sessionId u1).filter
    (fun q => (answeredQuestionIds s sessionId u2).contains q)).length

/-- Specification-side tiered fallback discount of §4.4 step 2. -/
def tieredDefaultDiscount (matchPercentage : Nat) : String :=
  if 80 ≤ matchPercentage then "30% OFF"
  else if 60 ≤ matchPercentage then "20% OFF"
  else "10% OFF"

/-- Vouchers of one session, for stating the at-most-one invariant. -/
def vouchersForSession (s : DBState) (sessionId : Nat) : List VoucherRow :=
  s.vouchers.filter (fun v => v.sessionId == sessionId)

/-- Completed flag of a session row, read back from the store. -/
def sessionCompletedFlag (s : DBState) (sessionId : Nat) : Option Bool :=
  (s.sessions.find? (fun g => g.id == sessionId)).map (fun g => g.completed)

/-- Persisted match percentage of a session row, read back from the store. -/
def sessionStoredPct (s : DBState) (sessionId : Nat) : Option Nat :=
  (s.sessions.find? (fun g => g.id == sessionId)).bind (fun g => g.matchPercentage)

/-!
Concrete stores used by counterexamples and witnesses.  All of them share
a small catalog: questions 1 and 2 are common, question 3 is individual;
option ids 11/12 belong to question 1, 21/22 to question 2, 31/32 to
question 3, with texts "A"/"B".
-/

/-- Shared demo question catalog. -/
def demoQuestions : List QuestionRow :=
  [⟨1, "Q1", "common"⟩, ⟨2, "Q2", "common"⟩, ⟨3, "Q3", "individual"⟩]

/-- Shared demo option catalog. -/
def demoOptions : List OptionRow :=
  [⟨11, 1, "A"⟩, ⟨12, 1, "B"⟩, ⟨21, 2, "A"⟩, ⟨22, 2, "B"⟩,
   ⟨31, 3, "A"⟩, ⟨32, 3, "B"⟩]

/-- Store where user 1 answered common questions 1 and 2 but user 2
answered only question 1 (identically): one mutually answered question. -/
def cexDenominatorState : DBState :=
  { sessions := [⟨1, "ABC123", false, none⟩],
    participants := [(1, 1), (1, 2)],
    questions := demoQuestions,
    options := demoOptions,
    answers := [⟨1, 1, 1, 11⟩, ⟨1, 1, 2, 21⟩, ⟨2, 1, 1, 11⟩],
    vouchers := [],
    couponTemplates := [] }

/-- Store where both users answered common question 1 and individual
question 3, identically in both cases: two mutually answered questions,
one of them individual. -/
def cexCategoryState : DBState :=
  { sessions := [⟨1, "ABC123", false, none⟩],
    participants := [(1, 1), (1, 2)],
    questions := demoQuestions,
    options := demoOptions,
    answers := [⟨1, 1, 1, 11⟩, ⟨2, 1, 1, 11⟩, ⟨1, 1, 3, 31⟩, ⟨2, 1, 3, 31⟩],
    vouchers := [],
    couponTemplates := [] }

/-- Store with 2 members where only user 1 has submitted (a single
answer); user 2 has submitted nothing. -/
def cexNotReadyState : DBState :=
  { sessions := [⟨1, "ABC123", false, none⟩],
    participants := [(1, 1), (1, 2)],
    questions := demoQuestions,
    options := demoOptions,
    answers := [⟨1, 1, 1, 11⟩],
    vouchers := [],
    couponTemplates := [] }

/-- Fully submitted store: both users answered all three questions; they
agree on question 1 and disagree on questions 2 and 3. -/
def cexReadyState : DBState :=
  { sessions := [⟨1, "ABC123", false, none⟩],
    participants := [(1, 1), (1, 2)],
    questions := demoQuestions,
    options := demoOptions,
    answers := [⟨1, 1, 1, 11⟩, ⟨1, 1, 2, 21⟩, ⟨1, 1, 3, 31⟩,
                ⟨2, 1, 1, 11⟩, ⟨2, 1, 2, 22⟩, ⟨2, 1, 3, 32⟩],
    vouchers := [],
    couponTemplates := [] }

/-- Store whose session 1 already has user 7 as its only member. -/
def demoJoinState : DBState :=
  { sessions := [⟨1, "JOINAA", false, none⟩],
    participants := [(1, 7)],
    questions := demoQuestions,
    options := demoOptions,
    answers := [],
    vouchers := [],
    couponTemplates := [] }

/-- Store whose session 1 is full with members 7 and 8. -/
def demoFullState : DBState :=
  { sessions := [⟨1, "FULLAA", false, none⟩],
    participants := [(1, 7), (1, 8)],
    questions := demoQuestions,
    options := demoOptions,
    answers := [],
    vouchers := [],
    couponTemplates := [] }

/-- Store with no vouchers, used for voucher idempotence. -/
def demoVoucherState : DBState :=
  { sessions := [⟨1, "VCHAAA", true, some 75⟩],
    participants := [(1, 1), (1, 2)],
    questions := demoQuestions,
    options := demoOptions,
    answers := [],
    vouchers := [],
    couponTemplates := [] }

/-- The coupon-template demo of spec P7: active thresholds 60 and 80. -/
def demoCouponState : DBState :=
  { sessions := [],
    participants := [],
    questions := [],
    options := [],
    answers := [],
    vouchers := [],
    couponTemplates :=
      [⟨1, "Silver", "percentage", "15", "AED", 30, 60, true⟩,
       ⟨2, "Gold", "percentage", "25", "AED", 30, 80, true⟩] }

/-- The threshold-60 template of `demoCouponState`. -/
def demoT60 : CouponTemplate := ⟨1, "Silver", "percentage", "15", "AED", 30, 60, true⟩

/-- C8: joining a session again with a participant that is already a member
returns success and leaves the store untouched — no second membership row
and no `Conflict`. -/
theorem joinSession_idempotent (s : DBState) (code : String) (sess : GameSession) (uid : Nat)
    (hsess : getGameSessionByCode s code = some sess)
    (hmem : uid ∈ getSessionParticipants s sess.id) :
    joinSession s code uid = (true, s) := by
  unfold joinSession
  rw [hsess]
  simp [List.contains, hmem]

/-- Witness for C8 at a concrete store: user 7 rejoins session "JOINAA". -/
theorem joinSession_idempotent_witness :
    joinSession demoJoinState "JOINAA" 7 = (true, demoJoinState) :=
  joinSession_idempotent demoJoinState "JOINAA" ⟨1, "JOINAA", false, none⟩ 7 rfl (by decide)

/-- Saving a list of answer rows leaves the membership table untouched. -/
theorem foldl_saveUserAnswer_participants (uid sid : Nat) (l : List (Nat × Nat)) (s : DBState) :
    (l.foldl (fun st a => saveUserAnswer st ⟨uid, sid, a.1, a.2⟩) s).participants
      = s.participants := by
  induction l generalizing s with
  | nil => rfl
  | cons a t ih => rw [List.foldl_cons, ih]; rfl

/-- C10: submitting an empty answers list for an existing session code
succeeds and leaves the store exactly as it was, so the submission and
all-submitted queries are unchanged by the call. -/
theorem submitAnswers_empty_noop (s : DBState) (code : String) (uid : Nat) (sess : GameSession)
    (hsess : getGameSessionByCode s code = some sess) :
    submitAnswers s code uid [] = Except.ok s ∧
    (∀ s2, submitAnswers s code uid [] = Except.ok s2 →
      hasUserSubmittedAnswers s2 sess.id uid = hasUserSubmittedAnswers s sess.id uid ∧
      areAllAnswersSubmitted s2 sess.id = areAllAnswersSubmitted s sess.id) := by
  have h1 : submitAnswers s code uid [] = Except.ok s := by
    unfold submitAnswers
    rw [hsess]
    rfl
  refine ⟨h1, fun s2 h2 => ?_⟩
  rw [h1] at h2
  injection h2 with h3
  rw [h3]
  exact ⟨rfl, rfl⟩

/-- Witness for C10 at a concrete store. -/
theorem submitAnswers_empty_noop_witness :
    submitAnswers demoJoinState "JOINAA" 7 [] = Except.ok demoJoinState ∧
    (∀ s2, submitAnswers demoJoinState "JOINAA" 7 [] = Except.ok s2 →
      hasUserSubmittedAnswers s2 1 7 = hasUserSubmittedAnswers demoJoinState 1 7 ∧
      areAllAnswersSubmitted s2 1 = areAllAnswersSubmitted demoJoinState 1) :=
  submitAnswers_empty_noop demoJoinState "JOINAA" 7 ⟨1, "JOINAA", false, none⟩ rfl

/-- C9: a join by a non-member of a session that already has 2 members
fails and changes nothing, and no operation of the core ever removes a
membership row (join, submit, both match-calculation variants, the
voucher step and the download marker all preserve membership). -/
theorem sessionCapacity (s : DBState) (code : String) (sess : GameSession) (uid : Nat)
    (hsess : getGameSessionByCode s code = some sess)
    (hmem : uid ∉ getSessionParticipants s sess.id)
    (hfull : 2 ≤ (getSessionParticipants s sess.id).length) :
    joinSession s code uid = (false, s) ∧
    (∀ s2 c u, ∀ p ∈ s2.participants, p ∈ (joinSession s2 c u).2.participants) ∧
    (∀ s2 c u ans s3, submitAnswers s2 c u ans = Except.ok s3 →
      ∀ p ∈ s2.participants, p ∈ s3.participants) ∧
    (∀ s2 c, (calculateMatchesV1 s2 c).2.participants = s2.participants) ∧
    (∀ s2 c, (calculateMatchesV2 s2 c).2.participants = s2.participants) ∧
    (∀ s2 sid pct suf, (resultsVoucherStep s2 sid pct suf).2.participants = s2.participants) ∧
    (∀ s2 vid, (markVoucherAsDownloaded s2 vid).participants = s2.participants) := by
  refine ⟨?_, ?_, ?_, ?_, ?_, ?_, ?_⟩
  · unfold joinSession
    rw [hsess]
    simp [List.contains, hmem, Nat.not_lt.mpr hfull]
  · intro s2 c u p hp
    unfold joinSession
    rcases hg : getGameSessionByCode s2 c with _ | sess2
    · exact hp
    · by_cases h1 : u ∈ getSessionParticipants s2 sess2.id
      · simpa [List.contains, h1] using hp
      · by_cases h2 : 2 ≤ (getSessionParticipants s2 sess2.id).length
        · simpa [List.contains, h1, h2] using hp
        · simp [List.contains, h1, h2, addParticipantToSession, List.mem_append, hp]
  · intro s2 c u ans s3 h p hp
    unfold submitAnswers at h
    rcases hg : getGameSessionByCode s2 c with _ | sess2
    · rw [hg] at h; cases h
    · rw [hg] at h
      injection h with h3
      rw [← h3, foldl_saveUserAnswer_participants]
      exact hp
  · intro s2 c
    rcases hg : getGameSessionByCode s2 c with _ | sess2
    · simp [calculateMatchesV1, hg]
    · rcases hp : getSessionParticipants s2 sess2.id with _ | ⟨a, _ | ⟨b, _ | ⟨x, t3⟩⟩⟩ <;>
        simp [calculateMatchesV1, hg, hp, updateSessionResult]
  · intro s2 c
    rcases hg : getGameSessionByCode s2 c with _ | sess2
    · simp [calculateMatchesV2, hg]
    · rcases hp : getSessionParticipants s2 sess2.id with _ | ⟨a, _ | ⟨b, _ | ⟨x, t3⟩⟩⟩ <;>
        simp [calculateMatchesV2, hg, hp]
  · intro s2 sid pct suf
    unfold resultsVoucherStep
    by_cases h : 50 ≤ pct
    · simp only [h, if_true]
      rcases hv : getVoucherBySessionId s2 sid with _ | v
      · rcases ht : getActiveCouponTemplate s2 pct with _ | t <;>
          simp [generateVoucher, createVoucher, ht]
      · rfl
    · simp [h]
  · intro s2 vid
    rfl

/-- Witness for C9 at a concrete store: user 9 cannot join the full
session "FULLAA". -/
theorem sessionCapacity_witness :
    joinSession demoFullState "FULLAA" 9 = (false, demoFullState) ∧
    (∀ s2 c u, ∀ p ∈ s2.participants, p ∈ (joinSession s2 c u).2.participants) ∧
    (∀ s2 c u ans s3, submitAnswers s2 c u ans = Except.ok s3 →
      ∀ p ∈ s2.participants, p ∈ s3.participants) ∧
    (∀ s2 c, (calculateMatchesV1 s2 c).2.participants = s2.participants) ∧
    (∀ s2 c, (calculateMatchesV2 s2 c).2.participants = s2.participants) ∧
    (∀ s2 sid pct suf, (resultsVoucherStep s2 sid pct suf).2.participants = s2.participants) ∧
    (∀ s2 vid, (markVoucherAsDownloaded s2 vid).participants = s2.participants) :=
  sessionCapacity demoFullState "FULLAA" ⟨1, "FULLAA", false, none⟩ 9
    (by decide) (by decide) (by decide)

/-- Looking a session up by code after `updateSessionResult` finds the
image of the session found before, since the update preserves codes. -/
theorem getGameSessionByCode_update (s : DBState) (code : String) (sid pct : Nat) :
    getGameSessionByCode (updateSessionResult s sid pct) code =
      (getGameSessionByCode s code).map
        (fun g => if g.id == sid then
          { g with completed := true, matchPercentage := some pct } else g) := by
  unfold getGameSessionByCode updateSessionResult
  have hfun :
      ((fun g : GameSession => g.sessionCode == code) ∘
        (fun g : GameSession => if g.id == sid then
          { g with completed := true, matchPercentage := some pct } else g))
        = fun g : GameSession => g.sessionCode == code := by
    funext g
    by_cases h : g.id == sid <;> simp [Function.comp, h]
  rw [List.find?_map, hfun]

/-- The state side of `updateSessionResult` only touches the sessions
table; the rest of the store is unchanged. -/
theorem matchOutcomeV1_update (s : DBState) (sid0 pct sid u1 u2 : Nat) :
    matchOutcomeV1 (updateSessionResult s sid0 pct) sid u1 u2 = matchOutcomeV1 s sid u1 u2 :=
  rfl

/-- Membership rows are unchanged by `updateSessionResult`. -/
theorem getSessionParticipants_update (s : DBState) (sid0 pct sid : Nat) :
    getSessionParticipants (updateSessionResult s sid0 pct) sid = getSessionParticipants s sid :=
  rfl

/-- The second variant of `calculateMatches` never changes the store. -/
theorem calculateMatchesV2_state (s : DBState) (code : String) :
    (calculateMatchesV2 s code).2 = s := by
  rcases hg : getGameSessionByCode s code with _ | sess
  · simp [calculateMatchesV2, hg]
  · rcases hp : getSessionParticipants s sess.id with _ | ⟨a, _ | ⟨b, _ | ⟨x, t3⟩⟩⟩ <;>
      simp [calculateMatchesV2, hg, hp]

/-- C3: re-invoking `calculateMatches` on the store left by a first
invocation returns the identical `MatchResult` — the same percentage, the
same matching and non-matching lists in the same order, and the same
reference participant for the yours/partner labeling — for both variants
of the function. -/
theorem calculateMatches_deterministic (s : DBState) (code : String) :
    (calculateMatchesV1 (calculateMatchesV1 s code).2 code).1 = (calculateMatchesV1 s code).1 ∧
    (calculateMatchesV2 (calculateMatchesV2 s code).2 code).1 = (calculateMatchesV2 s code).1 := by
  constructor
  · rcases hg : getGameSessionByCode s code with _ | sess
    · simp [calculateMatchesV1, hg]
    · rcases hp : getSessionParticipants s sess.id with _ | ⟨u1, _ | ⟨u2, _ | ⟨x, t3⟩⟩⟩
      · simp [calculateMatchesV1, hg, hp]
      · simp [calculateMatchesV1, hg, hp]
      · have h1 : calculateMatchesV1 s code =
            (some (matchOutcomeV1 s sess.id u1 u2),
             updateSessionResult s sess.id (matchOutcomeV1 s sess.id u1 u2).matchPercentage) := by
          simp [calculateMatchesV1, hg, hp]
        rw [h1]
        have hg2 : getGameSessionByCode
            (updateSessionResult s sess.id (matchOutcomeV1 s sess.id u1 u2).matchPercentage) code
            = some (GameSession.mk sess.id sess.sessionCode true
                (some (matchOutcomeV1 s sess.id u1 u2).matchPercentage)) := by
          rw [getGameSessionByCode_update, hg]
          simp
        simp [calculateMatchesV1, hg2, getSessionParticipants_update, hp, matchOutcomeV1_update]
      · simp [calculateMatchesV1, hg, hp]
  · rw [calculateMatchesV2_state]

/-- C4 (amended): on a session with fewer than 2 members both variants of
`calculateMatches` return null and leave the store untouched. -/
theorem calculateMatches_fewParticipants (s : DBState) (code : String) (sess : GameSession)
    (hsess : getGameSessionByCode s code = some sess)
    (hlt : (getSessionParticipants s sess.id).length < 2) :
    calculateMatchesV1 s code = (none, s) ∧ calculateMatchesV2 s code = (none, s) := by
  rcases hp : getSessionParticipants s sess.id with _ | ⟨a, _ | ⟨b, t2⟩⟩
  · exact ⟨by simp [calculateMatchesV1, hsess, hp], by simp [calculateMatchesV2, hsess, hp]⟩
  · exact ⟨by simp [calculateMatchesV1, hsess, hp], by simp [calculateMatchesV2, hsess, hp]⟩
  · rw [hp] at hlt
    simp only [List.length_cons] at hlt
    omega

/-- Witness for C4 at a concrete store: session "JOINAA" has one member. -/
theorem calculateMatches_fewParticipants_witness :
    calculateMatchesV1 demoJoinState "JOINAA" = (none, demoJoinState) ∧
    calculateMatchesV2 demoJoinState "JOINAA" = (none, demoJoinState) :=
  calculateMatches_fewParticipants demoJoinState "JOINAA" ⟨1, "JOINAA", false, none⟩
    rfl (by decide)

/-- Counterexample for C4 as frozen: in `cexNotReadyState` the session has
2 members and only user 1 has submitted, yet the first variant of
`calculateMatches` returns a result instead of null and flips the
session's completed flag from false to true. -/
theorem calculateMatches_notReady_counterexample :
    (getSessionParticipants cexNotReadyState 1).length = 2 ∧
    hasUserSubmittedAnswers cexNotReadyState 1 1 = true ∧
    hasUserSubmittedAnswers cexNotReadyState 1 2 = false ∧
    ((calculateMatchesV1 cexNotReadyState "ABC123").1).isSome = true ∧
    sessionCompletedFlag cexNotReadyState 1 = some false ∧
    sessionCompletedFlag (calculateMatchesV1 cexNotReadyState "ABC123").2 1 = some true := by
  refine ⟨rfl, rfl, rfl, rfl, rfl, rfl⟩

/-- A session found by code is a row of the store, so `updateSessionResult`
flips its completed flag and records the percentage as read back by the
flag and percentage accessors. -/
theorem sessionFlags_update (s : DBState) (sess : GameSession) (hmem : sess ∈ s.sessions)
    (pct : Nat) :
    sessionCompletedFlag (updateSessionResult s sess.id pct) sess.id = some true ∧
    sessionStoredPct (updateSessionResult s sess.id pct) sess.id = some pct := by
  unfold sessionCompletedFlag sessionStoredPct updateSessionResult
  have hfun :
      ((fun g : GameSession => g.id == sess.id) ∘
        (fun g : GameSession => if g.id == sess.id then
          { g with completed := true, matchPercentage := some pct } else g))
        = fun g : GameSession => g.id == sess.id := by
    funext g
    by_cases h : g.id == sess.id <;> simp [Function.comp, h]
  have hsome : (s.sessions.find? (fun g : GameSession => g.id == sess.id)).isSome := by
    rw [List.find?_isSome]
    exact ⟨sess, hmem, by simp⟩
  rcases hfind : s.sessions.find? (fun g : GameSession => g.id == sess.id) with _ | g0
  · rw [hfind] at hsome; cases hsome
  · have hg0 := List.find?_some hfind
    have hg1 : g0.id = sess.id := by simpa using hg0
    rw [List.find?_map, hfun, hfind]
    simp [hg1]

/-- C5 (amended): whenever the first variant of `calculateMatches`
succeeds it persists `completed = true` and the computed match percentage
on the session row it resolved; the second variant persists nothing (see
the counterexample). -/
theorem calculateMatchesV1_persists (s : DBState) (code : String)
    (h : ((calculateMatchesV1 s code).1).isSome = true) :
    ∃ sess, getGameSessionByCode s code = some sess ∧
      sessionCompletedFlag (calculateMatchesV1 s code).2 sess.id = some true ∧
      sessionStoredPct (calculateMatchesV1 s code).2 sess.id =
        (calculateMatchesV1 s code).1.map (fun r => r.matchPercentage) := by
  cases hg : getGameSessionByCode s code with
  | none =>
    rw [show calculateMatchesV1 s code = (none, s) by simp [calculateMatchesV1, hg]] at h
    simp at h
  | some sess =>
    refine ⟨sess, rfl, ?_⟩
    rcases hp : getSessionParticipants s sess.id with _ | ⟨u1, _ | ⟨u2, _ | ⟨x, t3⟩⟩⟩
    · rw [show calculateMatchesV1 s code = (none, s) by simp [calculateMatchesV1, hg, hp]] at h
      simp at h
    · rw [show calculateMatchesV1 s code = (none, s) by simp [calculateMatchesV1, hg, hp]] at h
      simp at h
    · have h1 : calculateMatchesV1 s code =
          (some (matchOutcomeV1 s sess.id u1 u2),
           updateSessionResult s sess.id (matchOutcomeV1 s sess.id u1 u2).matchPercentage) := by
        simp [calculateMatchesV1, hg, hp]
      rw [h1]
      have hmem : sess ∈ s.sessions := List.mem_of_find?_eq_some hg
      have h2 := sessionFlags_update s sess hmem (matchOutcomeV1 s sess.id u1 u2).matchPercentage
      exact ⟨h2.1, by rw [h2.2]; rfl⟩
    · rw [show calculateMatchesV1 s code = (none, s) by simp [calculateMatchesV1, hg, hp]] at h
      simp at h

/-- Witness for C5 at a concrete store: the fully submitted session of
`cexReadyState`. -/
theorem calculateMatchesV1_persists_witness :
    ∃ sess, getGameSessionByCode cexReadyState "ABC123" = some sess ∧
      sessionCompletedFlag (calculateMatchesV1 cexReadyState "ABC123").2 sess.id = some true ∧
      sessionStoredPct (calculateMatchesV1 cexReadyState "ABC123").2 sess.id =
        (calculateMatchesV1 cexReadyState "ABC123").1.map (fun r => r.matchPercentage) :=
  calculateMatchesV1_persists cexReadyState "ABC123" rfl

/-- Counterexample for C5 as frozen: on the fully submitted session of
`cexReadyState` the second variant of `calculateMatches` succeeds but
leaves the store byte-identical — in particular the session is never
marked concluded and no percentage is persisted. -/
theorem calculateMatchesV2_noPersist_counterexample :
    areAllAnswersSubmitted cexReadyState 1 = true ∧
    ((calculateMatchesV2 cexReadyState "ABC123").1).isSome = true ∧
    (calculateMatchesV2 cexReadyState "ABC123").2 = cexReadyState ∧
    sessionCompletedFlag cexReadyState 1 = some false ∧
    sessionStoredPct cexReadyState 1 = none := by
  refine ⟨rfl, rfl, rfl, rfl, rfl⟩

/-- Whatever branch `generateVoucher` takes, it returns the prefixed code
built from the random suffix and appends exactly one voucher row for the
session carrying that code. -/
theorem generateVoucher_shape (s : DBState) (sid pct : Nat) (c : String) :
    (generateVoucher s sid pct c).1.voucherCode = "MAWADHA-" ++ c ∧
    ∃ vt dc vu, (generateVoucher s sid pct c).2.vouchers
      = s.vouchers ++ [⟨s.vouchers.length + 1, sid, "MAWADHA-" ++ c, vt, dc, vu, false⟩] := by
  unfold generateVoucher createVoucher
  rcases ht : getActiveCouponTemplate s pct with _ | t
  · exact ⟨rfl, _, _, _, rfl⟩
  · exact ⟨rfl, _, _, _, rfl⟩

/-- C6: with the route's existing-voucher check, issuing for the same
session twice (sequentially) returns the same voucher code both times,
the first call does return a voucher when the percentage qualifies, and
the at-most-one-voucher-per-session invariant is preserved by both
calls. -/
theorem voucherIssuance_idempotent (s : DBState) (sid pct : Nat) (c1 c2 : String)
    (hpct : 50 ≤ pct) :
    ((resultsVoucherStep (resultsVoucherStep s sid pct c1).2 sid pct c2).1.map
        (fun v => v.voucherCode)
      = (resultsVoucherStep s sid pct c1).1.map (fun v => v.voucherCode)) ∧
    ((resultsVoucherStep s sid pct c1).1.isSome = true) ∧
    ((vouchersForSession s sid).length ≤ 1 →
      (vouchersForSession (resultsVoucherStep s sid pct c1).2 sid).length ≤ 1 ∧
      (vouchersForSession
        (resultsVoucherStep (resultsVoucherStep s sid pct c1).2 sid pct c2).2 sid).length ≤ 1) := by
  rcases hv : getVoucherBySessionId s sid with _ | v
  · have h1 : resultsVoucherStep s sid pct c1 =
        (some (generateVoucher s sid pct c1).1, (generateVoucher s sid pct c1).2) := by
      simp [resultsVoucherStep, hpct, hv]
    obtain ⟨hcode, vt, dc, vu, hrows⟩ := generateVoucher_shape s sid pct c1
    have hempty : vouchersForSession s sid = [] := by
      unfold vouchersForSession
      rw [List.filter_eq_nil_iff]
      intro x hx
      unfold getVoucherBySessionId at hv
      rw [List.find?_eq_none] at hv
      exact fun hcontra => hv x hx hcontra
    have hv2 : getVoucherBySessionId (generateVoucher s sid pct c1).2 sid =
        some ⟨s.vouchers.length + 1, sid, "MAWADHA-" ++ c1, vt, dc, vu, false⟩ := by
      unfold getVoucherBySessionId
      rw [hrows, List.find?_append]
      unfold getVoucherBySessionId at hv
      rw [hv]
      simp
    have h2 : resultsVoucherStep (generateVoucher s sid pct c1).2 sid pct c2 =
        (some ⟨s.vouchers.length + 1, "MAWADHA-" ++ c1, dc, vu⟩,
         (generateVoucher s sid pct c1).2) := by
      simp [resultsVoucherStep, hpct, hv2]
    refine ⟨?_, ?_, ?_⟩
    · rw [h1]
      simp [h2, hcode]
    · rw [h1]
      rfl
    · intro _
      rw [h1]
      have hone : vouchersForSession (generateVoucher s sid pct c1).2 sid =
          [⟨s.vouchers.length + 1, sid, "MAWADHA-" ++ c1, vt, dc, vu, false⟩] := by
        unfold vouchersForSession
        rw [hrows, List.filter_append]
        rw [show s.vouchers.filter (fun v => v.sessionId == sid) = [] from hempty]
        simp
      constructor
      · rw [hone]
        simp
      · rw [show (resultsVoucherStep (generateVoucher s sid pct c1).2 sid pct c2).2
            = (generateVoucher s sid pct c1).2 by rw [h2]]
        rw [hone]
        simp
  · have h1 : resultsVoucherStep s sid pct c1 =
        (some ⟨v.id, v.voucherCode, v.discount, v.validUntil⟩, s) := by
      simp [resultsVoucherStep, hpct, hv]
    have h2 : resultsVoucherStep s sid pct c2 =
        (some ⟨v.id, v.voucherCode, v.discount, v.validUntil⟩, s) := by
      simp [resultsVoucherStep, hpct, hv]
    refine ⟨?_, ?_, fun hinv => ?_⟩
    · rw [h1]
      simp only [h2]
    · rw [h1]
      rfl
    · rw [h1]
      exact ⟨hinv, by rw [h2]; exact hinv⟩

/-- Witness for C6 at a concrete store with no voucher yet: two sequential
issue calls for session 1 at 75%. -/
theorem voucherIssuance_idempotent_witness :
    ((resultsVoucherStep (resultsVoucherStep demoVoucherState 1 75 "AAAAAA").2 1 75 "BBBBBB").1.map
        (fun v => v.voucherCode)
      = (resultsVoucherStep demoVoucherState 1 75 "AAAAAA").1.map (fun v => v.voucherCode)) ∧
    ((resultsVoucherStep demoVoucherState 1 75 "AAAAAA").1.isSome = true) ∧
    ((vouchersForSession demoVoucherState 1).length ≤ 1 →
      (vouchersForSession (resultsVoucherStep demoVoucherState 1 75 "AAAAAA").2 1).length ≤ 1 ∧
      (vouchersForSession
        (resultsVoucherStep (resultsVoucherStep demoVoucherState 1 75 "AAAAAA").2
          1 75 "BBBBBB").2 1).length ≤ 1) :=
  voucherIssuance_idempotent demoVoucherState 1 75 "AAAAAA" "BBBBBB" (by decide)

/-- The threshold-maximising fold of `getActiveCouponTemplate`: a returned
template comes from the list (or the seed) and dominates every listed
threshold as well as the seed's. -/
theorem pickBest_spec (l : List CouponTemplate) (acc : Option CouponTemplate)
    (t : CouponTemplate)
    (h : l.foldl (fun best t2 =>
        match best with
        | none => some t2
        | some b =>
            if b.matchPercentageThreshold < t2.matchPercentageThreshold then some t2
            else some b) acc = some t) :
    (t ∈ l ∨ acc = some t) ∧
    (∀ x ∈ l, x.matchPercentageThreshold ≤ t.matchPercentageThreshold) ∧
    (∀ b, acc = some b → b.matchPercentageThreshold ≤ t.matchPercentageThreshold) := by
  induction l generalizing acc with
  | nil =>
    rw [List.foldl_nil] at h
    refine ⟨Or.inr h, by simp, fun b hb => ?_⟩
    rw [h] at hb
    injection hb with hb
    rw [hb]
  | cons x xs ih =>
    rw [List.foldl_cons] at h
    obtain ⟨hmem, hall, hacc⟩ := ih _ h
    have hstep : ∀ b, (match acc with
        | none => some x
        | some b2 =>
            if b2.matchPercentageThreshold < x.matchPercentageThreshold then some x
            else some b2) = some b →
        x.matchPercentageThreshold ≤ b.matchPercentageThreshold ∧
        (b ∈ [x] ∨ acc = some b) ∧
        (∀ b0, acc = some b0 → b0.matchPercentageThreshold ≤ b.matchPercentageThreshold) := by
      intro b hb
      cases acc with
      | none =>
        have hb2 : some x = some b := hb
        injection hb2 with hb2
        rw [← hb2]
        exact ⟨Nat.le_refl _, Or.inl (List.mem_cons_self _ _), fun b0 hb0 => by cases hb0⟩
      | some b2 =>
        have hb2 : (if b2.matchPercentageThreshold < x.matchPercentageThreshold then some x
            else some b2) = some b := hb
        by_cases hlt : b2.matchPercentageThreshold < x.matchPercentageThreshold
        · rw [if_pos hlt] at hb2
          injection hb2 with hb2
          rw [← hb2]
          exact ⟨Nat.le_refl _, Or.inl (List.mem_cons_self _ _),
            fun b0 hb0 => by injection hb0 with hb0; rw [← hb0]; exact Nat.le_of_lt hlt⟩
        · rw [if_neg hlt] at hb2
          injection hb2 with hb2
          rw [← hb2]
          exact ⟨Nat.le_of_not_lt hlt, Or.inr rfl,
            fun b0 hb0 => by injection hb0 with hb0; rw [← hb0]⟩
    have hsome2 : ∃ bmid, (match acc with
        | none => some x
        | some b2 =>
            if b2.matchPercentageThreshold < x.matchPercentageThreshold then some x
            else some b2) = some bmid := by
      cases acc with
      | none => exact ⟨x, rfl⟩
      | some b2 =>
        by_cases hlt : b2.matchPercentageThreshold < x.matchPercentageThreshold
        · exact ⟨x, by rw [show (match some b2 with
            | none => some x
            | some b3 =>
                if b3.matchPercentageThreshold < x.matchPercentageThreshold then some x
                else some b3) = (if b2.matchPercentageThreshold < x.matchPercentageThreshold
                  then some x else some b2) from rfl, if_pos hlt]⟩
        · exact ⟨b2, by rw [show (match some b2 with
            | none => some x
            | some b3 =>
                if b3.matchPercentageThreshold < x.matchPercentageThreshold then some x
                else some b3) = (if b2.matchPercentageThreshold < x.matchPercentageThreshold
                  then some x else some b2) from rfl, if_neg hlt]⟩
    obtain ⟨bmid, hstk⟩ := hsome2
    refine ⟨?_, ?_, ?_⟩
    · rcases hmem with hm | hm
      · exact Or.inl (List.mem_cons_of_mem _ hm)
      · rcases (hstep t hm).2.1 with h2 | h2
        · rcases List.mem_cons.mp h2 with h3 | h3
          · exact Or.inl (h3 ▸ List.mem_cons_self _ _)
          · cases h3
        · exact Or.inr h2
    · intro y hy
      rcases List.mem_cons.mp hy with h3 | h3
      · have hxb := (hstep bmid hstk).1
        have hbt := hacc bmid hstk
        rw [h3]
        exact Nat.le_trans hxb hbt
      · exact hall y h3
    · intro b0 hb0
      have h5 := (hstep bmid hstk).2.2 b0 hb0
      exact Nat.le_trans h5 (hacc bmid hstk)

/-- C7: a selected active coupon template has the highest threshold at or
below the match percentage among the active templates, and when no
template qualifies `generateVoucher` falls back to the built-in tiered
default discount with a 3-month validity. -/
theorem rewardTiering (s : DBState) (pct sid : Nat) (c : String) :
    (∀ t, getActiveCouponTemplate s pct = some t →
      t ∈ s.couponTemplates ∧ t.isActive = true ∧ t.matchPercentageThreshold ≤ pct ∧
      ∀ t2 ∈ s.couponTemplates, t2.isActive = true → t2.matchPercentageThreshold ≤ pct →
        t2.matchPercentageThreshold ≤ t.matchPercentageThreshold) ∧
    (getActiveCouponTemplate s pct = none →
      (generateVoucher s sid pct c).1.discount = tieredDefaultDiscount pct ∧
      (generateVoucher s sid pct c).1.validUntil = ValidUntil.monthsFromNow 3) := by
  constructor
  · intro t ht
    unfold getActiveCouponTemplate at ht
    obtain ⟨hmem, hall, _⟩ := pickBest_spec _ none t ht
    have hmem2 : t ∈ s.couponTemplates.filter
        (fun t2 => t2.isActive && t2.matchPercentageThreshold ≤ pct) := by
      rcases hmem with hm | hm
      · exact hm
      · cases hm
    rw [List.mem_filter] at hmem2
    obtain ⟨hmem3, hcond⟩ := hmem2
    rw [Bool.and_eq_true] at hcond
    refine ⟨hmem3, hcond.1, by simpa using hcond.2, fun t2 h2 hact hthr => ?_⟩
    refine hall t2 ?_
    rw [List.mem_filter, Bool.and_eq_true]
    exact ⟨h2, hact, by simpa using hthr⟩
  · intro hnone
    unfold generateVoucher
    rw [hnone]
    exact ⟨rfl, rfl⟩

/-- Witness for C7 at the concrete template catalog of spec scenario P7:
thresholds 60 and 80, percentage 75, so the threshold-60 template is
selected; and a store with no templates at 75% falls back to "20% OFF"
with 3 months validity. -/
theorem rewardTiering_witness :
    getActiveCouponTemplate demoCouponState 75 = some demoT60 ∧
    (demoT60 ∈ demoCouponState.couponTemplates ∧ demoT60.isActive = true ∧
      demoT60.matchPercentageThreshold ≤ 75 ∧
      ∀ t2 ∈ demoCouponState.couponTemplates, t2.isActive = true →
        t2.matchPercentageThreshold ≤ 75 →
        t2.matchPercentageThreshold ≤ demoT60.matchPercentageThreshold) ∧
    (getActiveCouponTemplate demoJoinState 75 = none →
      (generateVoucher demoJoinState 1 75 "CCCCCC").1.discount = tieredDefaultDiscount 75 ∧
      (generateVoucher demoJoinState 1 75 "CCCCCC").1.validUntil = ValidUntil.monthsFromNow 3) :=
  ⟨rfl, (rewardTiering demoCouponState 75 1 "CCCCCC").1 demoT60 rfl,
   (rewardTiering demoJoinState 75 1 "CCCCCC").2⟩

/-- Keys after a JS `Map.set`: unchanged when the key was present, the key
appended otherwise. -/
theorem mapSet_keys (m : AMap) (k : Nat) (v : AnswerInfo) :
    (mapSet m k v).map Prod.fst =
      if m.any (fun p => p.1 == k) then m.map Prod.fst else m.map Prod.fst ++ [k] := by
  unfold mapSet
  split
  · rw [List.map_map]
    refine List.map_congr_left ?_
    intro p _
    by_cases h : p.1 = k
    · simp [h]
    · simp [h]
  · rw [List.map_append]
    rfl

/-- Key membership after a JS `Map.set`. -/
theorem mem_keys_mapSet (m : AMap) (k : Nat) (v : AnswerInfo) (k2 : Nat) :
    k2 ∈ (mapSet m k v).map Prod.fst ↔ k2 ∈ m.map Prod.fst ∨ k2 = k := by
  rw [mapSet_keys]
  by_cases h : m.any (fun p => p.1 == k)
  · rw [if_pos h]
    rw [List.any_eq_true] at h
    obtain ⟨p, hp, hpk⟩ := h
    constructor
    · exact Or.inl
    · rintro (h2 | rfl)
      · exact h2
      · exact List.mem_map.mpr ⟨p, hp, by simpa using hpk⟩
  · rw [if_neg h, List.mem_append, List.mem_singleton]

/-- A JS `Map` keeps its keys duplicate-free under `Map.set`. -/
theorem nodup_keys_mapSet (m : AMap) (k : Nat) (v : AnswerInfo)
    (hnd : (m.map Prod.fst).Nodup) : ((mapSet m k v).map Prod.fst).Nodup := by
  rw [mapSet_keys]
  by_cases h : m.any (fun p => p.1 == k)
  · rw [if_pos h]
    exact hnd
  · rw [if_neg h]
    have h2 : m.any (fun p => p.1 == k) = false := Bool.eq_false_iff.mpr h
    have hk : k ∉ m.map Prod.fst := by
      rw [List.any_eq_false] at h2
      intro hmem
      obtain ⟨p, hp, hpk⟩ := List.mem_map.mp hmem
      exact h2 p hp (by simp [hpk])
    rw [List.nodup_append]
    refine ⟨hnd, List.nodup_singleton k, ?_⟩
    intro x hx hxk
    rw [List.mem_singleton] at hxk
    rw [hxk] at hx
    exact hk hx

/-- Proof helper: the one-user projection of the fill loop of
`buildAnswerMaps`. -/
def fillMap (u : Nat) (l : List JoinedAnswer) (m : AMap) : AMap :=
  l.foldl (fun m2 a =>
    if a.userId == u then mapSet m2 a.questionId ⟨a.questionText, a.answerText⟩ else m2) m

/-- Unfolding `fillMap` one answer at a time. -/
theorem fillMap_cons (u : Nat) (a : JoinedAnswer) (t : List JoinedAnswer) (m : AMap) :
    fillMap u (a :: t) m =
      fillMap u t (if a.userId == u then
        mapSet m a.questionId ⟨a.questionText, a.answerText⟩ else m) :=
  rfl

/-- For two distinct participants the combined fill loop of
`buildAnswerMaps` is the pair of one-user fills. -/
theorem buildAnswerMaps_eq (u1 u2 : Nat) (h12 : u1 ≠ u2) (l : List JoinedAnswer) :
    buildAnswerMaps u1 u2 l = (fillMap u1 l [], fillMap u2 l []) := by
  have hgen : ∀ l2 (m1 m2 : AMap),
      l2.foldl (fun ms a =>
        if a.userId == u1 then (mapSet ms.1 a.questionId ⟨a.questionText, a.answerText⟩, ms.2)
        else if a.userId == u2 then (ms.1, mapSet ms.2 a.questionId ⟨a.questionText, a.answerText⟩)
        else ms) (m1, m2) = (fillMap u1 l2 m1, fillMap u2 l2 m2) := by
    intro l2
    induction l2 with
    | nil => intro m1 m2; rfl
    | cons a t ih =>
      intro m1 m2
      rw [List.foldl_cons, fillMap_cons, fillMap_cons]
      cases hb1 : (a.userId == u1) with
      | true =>
        cases hb2 : (a.userId == u2) with
        | true =>
          exact absurd (by rw [← beq_iff_eq.mp hb1, beq_iff_eq.mp hb2]) h12
        | false =>
          exact ih _ _
      | false =>
        cases hb2 : (a.userId == u2) with
        | true =>
          exact ih _ _
        | false =>
          exact ih _ _
  exact hgen l [] []

/-- Key membership of a filled map: initial keys together with the
question ids that the user answered in the list. -/
theorem mem_keys_fillMap (u : Nat) (l : List JoinedAnswer) (k : Nat) : ∀ m : AMap,
    (k ∈ (fillMap u l m).map Prod.fst ↔
      k ∈ m.map Prod.fst ∨ ∃ a ∈ l, a.userId = u ∧ a.questionId = k) := by
  induction l with
  | nil => intro m; simp [fillMap]
  | cons a t ih =>
    intro m
    rw [fillMap_cons]
    by_cases h1 : a.userId = u
    · rw [if_pos (by simp [h1])]
      rw [ih]
      rw [mem_keys_mapSet]
      constructor
      · rintro ((hm | rfl) | ⟨a2, ha2, hu2, hk2⟩)
        · exact Or.inl hm
        · exact Or.inr ⟨a, List.mem_cons_self _ _, h1, rfl⟩
        · exact Or.inr ⟨a2, List.mem_cons_of_mem _ ha2, hu2, hk2⟩
      · rintro (hm | ⟨a2, ha2, hu2, hk2⟩)
        · exact Or.inl (Or.inl hm)
        · rcases List.mem_cons.mp ha2 with rfl | ha3
          · exact Or.inl (Or.inr hk2.symm)
          · exact Or.inr ⟨a2, ha3, hu2, hk2⟩
    · rw [if_neg (by simp [h1])]
      rw [ih]
      constructor
      · rintro (hm | ⟨a2, ha2, hu2, hk2⟩)
        · exact Or.inl hm
        · exact Or.inr ⟨a2, List.mem_cons_of_mem _ ha2, hu2, hk2⟩
      · rintro (hm | ⟨a2, ha2, hu2, hk2⟩)
        · exact Or.inl hm
        · rcases List.mem_cons.mp ha2 with rfl | ha3
          · exact absurd hu2 h1
          · exact Or.inr ⟨a2, ha3, hu2, hk2⟩

/-- A filled map keeps duplicate-free keys. -/
theorem nodup_keys_fillMap (u : Nat) (l : List JoinedAnswer) : ∀ m : AMap,
    (m.map Prod.fst).Nodup → ((fillMap u l m).map Prod.fst).Nodup := by
  induction l with
  | nil => intro m h; exact h
  | cons a t ih =>
    intro m h
    rw [fillMap_cons]
    by_cases h1 : a.userId = u
    · rw [if_pos (by simp [h1])]
      exact ih _ (nodup_keys_mapSet _ _ _ h)
    · rw [if_neg (by simp [h1])]
      exact ih _ h

/-- A JS `Map.get` succeeds exactly on the stored keys. -/
theorem mapGet_isSome_iff (m : AMap) (k : Nat) :
    ((mapGet m k).isSome = true) ↔ k ∈ m.map Prod.fst := by
  unfold mapGet
  rw [Option.isSome_map', List.find?_isSome]
  constructor
  · rintro ⟨p, hp, hpk⟩
    exact List.mem_map.mpr ⟨p, hp, by simpa using hpk⟩
  · intro hk
    obtain ⟨p, hp, hpk⟩ := List.mem_map.mp hk
    exact ⟨p, hp, by simp [hpk]⟩

/-- The comparison fold counts one matching-or-non-matching entry per map
entry whose key the second map also holds. -/
theorem compare_foldl_counts (m2 : AMap) (m1 : AMap) : ∀ acc : CompareAcc,
    (m1.foldl (compareStep m2) acc).matchingAnswers.length
      + (m1.foldl (compareStep m2) acc).nonMatchingAnswers.length
      = acc.matchingAnswers.length + acc.nonMatchingAnswers.length
        + m1.countP (fun kv => (mapGet m2 kv.1).isSome) := by
  induction m1 with
  | nil => intro acc; simp
  | cons kv t ih =>
    intro acc
    rw [List.foldl_cons, List.countP_cons, ih]
    rcases hget : mapGet m2 kv.1 with _ | a2
    · have hstep : compareStep m2 acc kv = acc := by
        unfold compareStep
        rw [hget]
      rw [hstep]
      simp [hget]
    · have hcond : ((mapGet m2 kv.1).isSome : Bool) = true := by rw [hget]; rfl
      by_cases heq : kv.2.answerText == a2.answerText
      · have hstep : compareStep m2 acc kv =
            { acc with
                matchCount := acc.matchCount + 1,
                matchingAnswers :=
                  acc.matchingAnswers ++ [⟨kv.2.questionText, kv.2.answerText⟩] } := by
          unfold compareStep
          rw [hget]
          exact if_pos heq
        rw [hstep]
        simp [hcond]
        omega
      · have hstep : compareStep m2 acc kv =
            { acc with
                nonMatchingAnswers :=
                  acc.nonMatchingAnswers ++ [⟨kv.2.questionText, kv.2.answerText, a2.answerText⟩] } := by
          unfold compareStep
          rw [hget]
          exact if_neg heq
        rw [hstep]
        simp [hcond]
        omega

/-- The match counter of the comparison fold equals the length of the
matching list it builds. -/
theorem compare_foldl_matchCount (m2 : AMap) (m1 : AMap) : ∀ acc : CompareAcc,
    (m1.foldl (compareStep m2) acc).matchCount + acc.matchingAnswers.length
      = (m1.foldl (compareStep m2) acc).matchingAnswers.length + acc.matchCount := by
  induction m1 with
  | nil =>
    intro acc
    rw [List.foldl_nil]
    omega
  | cons kv t ih =>
    intro acc
    rw [List.foldl_cons]
    rcases hget : mapGet m2 kv.1 with _ | a2
    · have hstep : compareStep m2 acc kv = acc := by
        unfold compareStep
        rw [hget]
      rw [hstep]
      exact ih acc
    · by_cases heq : kv.2.answerText == a2.answerText
      · have hstep : compareStep m2 acc kv =
            { acc with
                matchCount := acc.matchCount + 1,
                matchingAnswers :=
                  acc.matchingAnswers ++ [⟨kv.2.questionText, kv.2.answerText⟩] } := by
          unfold compareStep
          rw [hget]
          exact if_pos heq
        rw [hstep]
        have := ih { acc with
          matchCount := acc.matchCount + 1,
          matchingAnswers := acc.matchingAnswers ++ [⟨kv.2.questionText, kv.2.answerText⟩] }
        simp at this ⊢
        omega
      · have hstep : compareStep m2 acc kv =
            { acc with
                nonMatchingAnswers :=
                  acc.nonMatchingAnswers ++ [⟨kv.2.questionText, kv.2.answerText, a2.answerText⟩] } := by
          unfold compareStep
          rw [hget]
          exact if_neg heq
        rw [hstep]
        exact ih _

/-- `matchCount` of the comparison equals the matching-list length. -/
theorem compareAnswerMaps_matchCount (m1 m2 : AMap) :
    (compareAnswerMaps m1 m2).matchCount = (compareAnswerMaps m1 m2).matchingAnswers.length := by
  have h := compare_foldl_matchCount m2 m1 ⟨0, [], []⟩
  simpa [compareAnswerMaps] using h

/-- Counting entries whose key the second map holds equals filtering the
key list by that lookup. -/
theorem countP_keys (m1 m2 : AMap) :
    m1.countP (fun kv => (mapGet m2 kv.1).isSome) =
      ((m1.map Prod.fst).filter (fun k => (mapGet m2 k).isSome)).length := by
  rw [← List.countP_eq_length_filter, List.countP_map]
  rfl

/-- Membership in the specification-side list of answered question ids. -/
theorem mem_answeredQuestionIds (s : DBState) (sid u k : Nat) :
    k ∈ answeredQuestionIds s sid u ↔
      ∃ a ∈ s.answers, a.sessionId = sid ∧ a.userId = u ∧ a.questionId = k := by
  unfold answeredQuestionIds
  rw [List.mem_dedup, List.mem_map]
  constructor
  · rintro ⟨a, ha, hak⟩
    rw [List.mem_filter, Bool.and_eq_true] at ha
    exact ⟨a, ha.1, by simpa using ha.2.1, by simpa using ha.2.2, hak⟩
  · rintro ⟨a, ha, hsid, hu, hk⟩
    refine ⟨a, ?_, hk⟩
    rw [List.mem_filter, Bool.and_eq_true]
    exact ⟨ha, by simpa using hsid, by simpa using hu⟩

/-- Under referential integrity the joined per-session answer list holds a
(user, question) pair exactly when a raw answer row does. -/
theorem mem_joined_iff (s : DBState) (sid : Nat) (hint : RefIntact s) (u k : Nat) :
    (∃ ja ∈ getSessionAnswers s sid, ja.userId = u ∧ ja.questionId = k) ↔
      ∃ a ∈ s.answers, a.sessionId = sid ∧ a.userId = u ∧ a.questionId = k := by
  unfold getSessionAnswers
  constructor
  · rintro ⟨ja, hja, hu, hk⟩
    rw [List.mem_filterMap] at hja
    obtain ⟨a, ha, hjoin⟩ := hja
    rw [List.mem_filter] at ha
    obtain ⟨ha1, ha2⟩ := ha
    have hfields : ja.userId = a.userId ∧ ja.questionId = a.questionId := by
      unfold joinAnswer at hjoin
      rcases h1 : lookupQuestion s a.questionId with _ | q
      · rw [h1] at hjoin; cases hjoin
      · rcases h2 : lookupOption s a.selectedOptionId with _ | o
        · rw [h1, h2] at hjoin; cases hjoin
        · rw [h1, h2] at hjoin
          injection hjoin with hj
          rw [← hj]
          exact ⟨rfl, rfl⟩
    exact ⟨a, ha1, by simpa using ha2,
      by rw [← hfields.1, hu], by rw [← hfields.2, hk]⟩
  · rintro ⟨a, ha, hsid, hu, hk⟩
    obtain ⟨hq, ho⟩ := hint a ha
    rcases h1 : lookupQuestion s a.questionId with _ | q
    · rw [h1] at hq; cases hq
    · rcases h2 : lookupOption s a.selectedOptionId with _ | o
      · rw [h2] at ho; cases ho
      · refine ⟨⟨a.userId, a.questionId, q.text, q.questionType, o.optionText⟩, ?_, hu, hk⟩
        rw [List.mem_filterMap]
        refine ⟨a, ?_, ?_⟩
        · rw [List.mem_filter]
          exact ⟨ha, by simpa using hsid⟩
        · unfold joinAnswer
          rw [h1, h2]

/-- Core refinement for the second variant of `calculateMatches`: the
number of scored questions (matching plus non-matching) equals the
specification-side count of questions both participants answered. -/
theorem scoredCount_eq (s : DBState) (sid u1 u2 : Nat) (h12 : u1 ≠ u2) (hint : RefIntact s) :
    (compareAnswerMaps (buildAnswerMaps u1 u2 (getSessionAnswers s sid)).1
        (buildAnswerMaps u1 u2 (getSessionAnswers s sid)).2).matchingAnswers.length
      + (compareAnswerMaps (buildAnswerMaps u1 u2 (getSessionAnswers s sid)).1
        (buildAnswerMaps u1 u2 (getSessionAnswers s sid)).2).nonMatchingAnswers.length
      = bothAnsweredCount s sid u1 u2 := by
  rw [buildAnswerMaps_eq u1 u2 h12]
  have hcnt := compare_foldl_counts (fillMap u2 (getSessionAnswers s sid) [])
    (fillMap u1 (getSessionAnswers s sid) []) ⟨0, [], []⟩
  have hcnt2 : (compareAnswerMaps (fillMap u1 (getSessionAnswers s sid) [])
        (fillMap u2 (getSessionAnswers s sid) [])).matchingAnswers.length
      + (compareAnswerMaps (fillMap u1 (getSessionAnswers s sid) [])
        (fillMap u2 (getSessionAnswers s sid) [])).nonMatchingAnswers.length
      = (fillMap u1 (getSessionAnswers s sid) []).countP
          (fun kv => (mapGet (fillMap u2 (getSessionAnswers s sid) []) kv.1).isSome) := by
    simpa [compareAnswerMaps] using hcnt
  rw [hcnt2, countP_keys]
  unfold bothAnsweredCount
  apply List.Perm.length_eq
  have hnd1 : (((fillMap u1 (getSessionAnswers s sid) []).map Prod.fst).filter
      (fun k => (mapGet (fillMap u2 (getSessionAnswers s sid) []) k).isSome)).Nodup :=
    (nodup_keys_fillMap u1 (getSessionAnswers s sid) [] List.nodup_nil).filter _
  have hnd2 : ((answeredQuestionIds s sid u1).filter
      (fun q => (answeredQuestionIds s sid u2).contains q)).Nodup :=
    (List.nodup_dedup _).filter _
  rw [List.perm_ext_iff_of_nodup hnd1 hnd2]
  intro k
  rw [List.mem_filter, List.mem_filter]
  have hm1 : k ∈ (fillMap u1 (getSessionAnswers s sid) []).map Prod.fst ↔
      ∃ a ∈ s.answers, a.sessionId = sid ∧ a.userId = u1 ∧ a.questionId = k := by
    rw [mem_keys_fillMap]
    rw [← mem_joined_iff s sid hint u1 k]
    simp
  have hm2 : ((mapGet (fillMap u2 (getSessionAnswers s sid) []) k).isSome = true) ↔
      ∃ a ∈ s.answers, a.sessionId = sid ∧ a.userId = u2 ∧ a.questionId = k := by
    rw [mapGet_isSome_iff, mem_keys_fillMap]
    rw [← mem_joined_iff s sid hint u2 k]
    simp
  rw [hm1, hm2, mem_answeredQuestionIds]
  have hcont : ((answeredQuestionIds s sid u2).contains k = true) ↔
      ∃ a ∈ s.answers, a.sessionId = sid ∧ a.userId = u2 ∧ a.questionId = k := by
    rw [List.contains_iff_exists_mem_beq]
    constructor
    · rintro ⟨q, hq, hqk⟩
      rw [← mem_answeredQuestionIds s sid u2 k]
      have : k = q := by simpa using hqk
      rw [this]
      exact hq
    · intro h2
      exact ⟨k, (mem_answeredQuestionIds s sid u2 k).mpr h2, by simp⟩
  rw [hcont]

/-- Characterisation of the second variant's outcome: the scored count is
the both-answered count and the percentage is the guarded half-up rounding
of matches over that count. -/
theorem matchOutcomeV2_counts (s : DBState) (sid u1 u2 : Nat) (h12 : u1 ≠ u2)
    (hint : RefIntact s) :
    (matchOutcomeV2 s sid u1 u2).matchingAnswers.length
      + (matchOutcomeV2 s sid u1 u2).nonMatchingAnswers.length
      = bothAnsweredCount s sid u1 u2 ∧
    (matchOutcomeV2 s sid u1 u2).matchPercentage =
      (if 0 < bothAnsweredCount s sid u1 u2 then
        jsRound100 (matchOutcomeV2 s sid u1 u2).matchingAnswers.length
          (bothAnsweredCount s sid u1 u2)
      else 0) := by
  have hd := scoredCount_eq s sid u1 u2 h12 hint
  have hmc := compareAnswerMaps_matchCount
    (buildAnswerMaps u1 u2 (getSessionAnswers s sid)).1
    (buildAnswerMaps u1 u2 (getSessionAnswers s sid)).2
  constructor
  · exact hd
  · have hshow : (matchOutcomeV2 s sid u1 u2).matchPercentage =
        (if 0 < (compareAnswerMaps (buildAnswerMaps u1 u2 (getSessionAnswers s sid)).1
              (buildAnswerMaps u1 u2 (getSessionAnswers s sid)).2).matchingAnswers.length
            + (compareAnswerMaps (buildAnswerMaps u1 u2 (getSessionAnswers s sid)).1
              (buildAnswerMaps u1 u2 (getSessionAnswers s sid)).2).nonMatchingAnswers.length
          then jsRound100 (compareAnswerMaps (buildAnswerMaps u1 u2 (getSessionAnswers s sid)).1
              (buildAnswerMaps u1 u2 (getSessionAnswers s sid)).2).matchCount
            ((compareAnswerMaps (buildAnswerMaps u1 u2 (getSessionAnswers s sid)).1
              (buildAnswerMaps u1 u2 (getSessionAnswers s sid)).2).matchingAnswers.length
            + (compareAnswerMaps (buildAnswerMaps u1 u2 (getSessionAnswers s sid)).1
              (buildAnswerMaps u1 u2 (getSessionAnswers s sid)).2).nonMatchingAnswers.length)
          else 0) := rfl
    rw [hshow, hmc, hd]
    rfl

/-- C1 (amended): the second variant of `calculateMatches` computes
`matchPercentage = round(matchCount / d * 100)` with `d` the number of
questions both participants answered, and 0 when `d = 0`; the first
variant instead divides by the number of common-category questions the
first participant answered (see the counterexample). -/
theorem matchPercentage_formula (s : DBState) (code : String) (sess : GameSession)
    (u1 u2 : Nat) (r : MatchResult)
    (hsess : getGameSessionByCode s code = some sess)
    (hp : getSessionParticipants s sess.id = [u1, u2])
    (h12 : u1 ≠ u2) (hint : RefIntact s)
    (hr : (calculateMatchesV2 s code).1 = some r) :
    r.matchPercentage =
      (if 0 < bothAnsweredCount s sess.id u1 u2 then
        jsRound100 r.matchingAnswers.length (bothAnsweredCount s sess.id u1 u2)
      else 0) := by
  have hcalc : (calculateMatchesV2 s code).1 = some (matchOutcomeV2 s sess.id u1 u2) := by
    simp [calculateMatchesV2, hsess, hp]
  rw [hcalc] at hr
  injection hr with hr
  rw [← hr]
  exact (matchOutcomeV2_counts s sess.id u1 u2 h12 hint).2

/-- Witness for C1 at a concrete store: the fully submitted session of
`cexReadyState`, whose computed result is 33% of 1 match in 3 mutually
answered questions. -/
theorem matchPercentage_formula_witness :
    (MatchResult.mk 33 [⟨"Q1", "A"⟩] [⟨"Q2", "A", "B"⟩, ⟨"Q3", "A", "B"⟩] 1).matchPercentage =
      (if 0 < bothAnsweredCount cexReadyState 1 1 2 then
        jsRound100 (MatchResult.mk 33 [⟨"Q1", "A"⟩]
          [⟨"Q2", "A", "B"⟩, ⟨"Q3", "A", "B"⟩] 1).matchingAnswers.length
          (bothAnsweredCount cexReadyState 1 1 2)
      else 0) :=
  matchPercentage_formula cexReadyState "ABC123" ⟨1, "ABC123", false, none⟩ 1 2
    (MatchResult.mk 33 [⟨"Q1", "A"⟩] [⟨"Q2", "A", "B"⟩, ⟨"Q3", "A", "B"⟩] 1)
    rfl rfl (by decide) (by decide) rfl

/-- Counterexample for C1 as frozen: in `cexDenominatorState` exactly 1
question was answered by both participants and it matches, so the claimed
formula gives round(1/1*100) = 100, but the first variant of
`calculateMatches` divides by the 2 common questions participant 1
answered and returns 50. -/
theorem matchPercentage_denominator_counterexample :
    (calculateMatchesV1 cexDenominatorState "ABC123").1.map (fun r => r.matchPercentage)
      = some 50 ∧
    (calculateMatchesV1 cexDenominatorState "ABC123").1.map (fun r => r.matchingAnswers.length)
      = some 1 ∧
    bothAnsweredCount cexDenominatorState 1 1 2 = 1 ∧
    jsRound100 1 1 = 100 :=
  ⟨rfl, rfl, rfl, rfl⟩

/-- C2 (amended): the second variant of `calculateMatches` scores exactly
the mutually answered questions, regardless of category — its matching and
non-matching partitions together hold one entry per question both
participants answered; the first variant filters to common-category
questions (see the counterexample). -/
theorem scoresEveryMutualQuestion (s : DBState) (code : String) (sess : GameSession)
    (u1 u2 : Nat) (r : MatchResult)
    (hsess : getGameSessionByCode s code = some sess)
    (hp : getSessionParticipants s sess.id = [u1, u2])
    (h12 : u1 ≠ u2) (hint : RefIntact s)
    (hr : (calculateMatchesV2 s code).1 = some r) :
    r.matchingAnswers.length + r.nonMatchingAnswers.length
      = bothAnsweredCount s sess.id u1 u2 := by
  have hcalc : (calculateMatchesV2 s code).1 = some (matchOutcomeV2 s sess.id u1 u2) := by
    simp [calculateMatchesV2, hsess, hp]
  rw [hcalc] at hr
  injection hr with hr
  rw [← hr]
  exact (matchOutcomeV2_counts s sess.id u1 u2 h12 hint).1

/-- Witness for C2 at a concrete store: `cexReadyState` has 3 mutually
answered questions (two common, one individual) and the second variant
scores all 3 of them. -/
theorem scoresEveryMutualQuestion_witness :
    (MatchResult.mk 33 [⟨"Q1", "A"⟩] [⟨"Q2", "A", "B"⟩, ⟨"Q3", "A", "B"⟩] 1).matchingAnswers.length
      + (MatchResult.mk 33 [⟨"Q1", "A"⟩]
          [⟨"Q2", "A", "B"⟩, ⟨"Q3", "A", "B"⟩] 1).nonMatchingAnswers.length
      = bothAnsweredCount cexReadyState 1 1 2 :=
  scoresEveryMutualQuestion cexReadyState "ABC123" ⟨1, "ABC123", false, none⟩ 1 2
    (MatchResult.mk 33 [⟨"Q1", "A"⟩] [⟨"Q2", "A", "B"⟩, ⟨"Q3", "A", "B"⟩] 1)
    rfl rfl (by decide) (by decide) rfl

/-- Counterexample for C2 as frozen: in `cexCategoryState` both
participants answered common question 1 and individual question 3, yet the
first variant of `calculateMatches` scores only 1 question — the
individual-category question is filtered out of both partitions. -/
theorem categoryFiltering_counterexample :
    (calculateMatchesV1 cexCategoryState "ABC123").1.map
      (fun r => r.matchingAnswers.length + r.nonMatchingAnswers.length) = some 1 ∧
    bothAnsweredCount cexCategoryState 1 1 2 = 2 :=
  ⟨rfl, rfl⟩

end ConnectionQuest
